import Mathlib

set_option maxHeartbeats 1000000

/-! Verification of the News section core of the internship-landing repository:
the grid reorder engine (`source/js/modules/news-card-reorder.js`), the card
sizing decision (`isLargeCard`), the pagination sliding window
(`updatePaginationWindow`), the arrow navigation targets
(`source/js/sliders/news-navigation.js`), the content store
(`source/js/modules/news-loader.js`) and the slider guard
(`source/js/sliders/news-slider.js`).  JavaScript arrays become `List JSVal`,
`window.innerWidth` becomes an explicit `width : Nat` argument, and the
asynchronous fetch becomes a function of an explicit transport outcome. -/

/-- One news content item, as in the data model of `news.json`:
`date`, `title`, `description`, `image` (base path), `link`. -/
structure ContentItem where
  date : String
  title : String
  description : String
  image : String
  link : String
  deriving DecidableEq

/-- A JavaScript value as far as the reorder module can observe it: the
falsy values `null`, `undefined`, `false`, `0`, `""` and truthy
numbers/strings/booleans, plus content-item objects (always truthy). -/
inductive JSVal where
  | vnull
  | vundefined
  | vbool (b : Bool)
  | vnum (n : Int)
  | vstr (s : String)
  | item (it : ContentItem)
  deriving DecidableEq

/-- JavaScript truthiness, as used by `filter(Boolean)` and by
`if (card1) { ... }` in `news-card-reorder.js`. -/
def truthy : JSVal → Bool
  | .vnull => false
  | .vundefined => false
  | .vbool b => b
  | .vnum n => n != 0
  | .vstr s => s != ""
  | .item _ => true

/-- JavaScript array indexing `items[i]`: out-of-range access yields
`undefined` instead of failing. -/
def jsIndex (items : List JSVal) (i : Nat) : JSVal :=
  (items.get? i).getD JSVal.vundefined

/-- `BREAKPOINTS.TABLET` from `source/js/config/slider-constants.js`. -/
def BREAKPOINTS.TABLET : Nat := 768

/-- `BREAKPOINTS.DESKTOP` from `source/js/config/slider-constants.js`. -/
def BREAKPOINTS.DESKTOP : Nat := 1440

/-- `NEWS_SLIDER.PAGINATION.MAX_VISIBLE` from `slider-constants.js`. -/
def NEWS_SLIDER.PAGINATION.MAX_VISIBLE : Nat := 4

/-- `NEWS_SLIDER.SLIDES_PER_PAGE.MOBILE` from `slider-constants.js`. -/
def NEWS_SLIDER.SLIDES_PER_PAGE.MOBILE : Nat := 1

/-- `NEWS_SLIDER.SLIDES_PER_PAGE.TABLET` from `slider-constants.js`. -/
def NEWS_SLIDER.SLIDES_PER_PAGE.TABLET : Nat := 2

/-- `NEWS_SLIDER.SLIDES_PER_PAGE.DESKTOP` from `slider-constants.js`. -/
def NEWS_SLIDER.SLIDES_PER_PAGE.DESKTOP : Nat := 3

/-- `NEWS_SLIDER.CARDS_PER_PAGE.MOBILE` from `slider-constants.js`. -/
def NEWS_SLIDER.CARDS_PER_PAGE.MOBILE : Nat := 2

/-- `NEWS_SLIDER.CARDS_PER_PAGE.TABLET` from `slider-constants.js`. -/
def NEWS_SLIDER.CARDS_PER_PAGE.TABLET : Nat := 4

/-- `NEWS_SLIDER.CARDS_PER_PAGE.DESKTOP` from `slider-constants.js`. -/
def NEWS_SLIDER.CARDS_PER_PAGE.DESKTOP : Nat := 3

/-- The `topRow` array built by the loop in `reorderForMobileGrid`
(`news-card-reorder.js` lines 32-38): `items[i]` is pushed for every even
loop index `i < totalCards`, in increasing order of `i`. -/
def mobileTopRow (items : List JSVal) (totalCards : Nat) : List JSVal :=
  ((List.range totalCards).filter (fun i => i % 2 == 0)).map (jsIndex items)

/-- The `bottomRow` array built by the same loop: `items[i]` for every odd
loop index `i < totalCards`, in increasing order of `i`. -/
def mobileBottomRow (items : List JSVal) (totalCards : Nat) : List JSVal :=
  ((List.range totalCards).filter (fun i => i % 2 == 1)).map (jsIndex items)

/-- Embedding of `reorderForMobileGrid(items, totalCards)` from
`news-card-reorder.js`: split by index parity, pad both rows with `null`
up to `halfCount = Math.ceil(totalCards / 2)` (which is `(totalCards+1)/2`
on naturals), concatenate, and `filter(Boolean)`. -/
def reorderForMobileGrid (items : List JSVal) (totalCards : Nat) : List JSVal :=
  let halfCount := (totalCards + 1) / 2
  let topRow := mobileTopRow items totalCards
  let bottomRow := mobileBottomRow items totalCards
  let topPadded := topRow ++ List.replicate (halfCount - topRow.length) JSVal.vnull
  let bottomPadded := bottomRow ++ List.replicate (halfCount - bottomRow.length) JSVal.vnull
  (topPadded ++ bottomPadded).filter truthy

/-- The sequence of `pageStart` values visited by the loop
`for (pageStart = 0; pageStart < totalCards; pageStart += cardsPerPage)`
in `reorderForTabletGrid`, with `cardsPerPage = 4`: one iteration per
started group of four. -/
def tabletPageStarts (totalCards : Nat) : List Nat :=
  (List.range ((totalCards + NEWS_SLIDER.CARDS_PER_PAGE.TABLET - 1) /
      NEWS_SLIDER.CARDS_PER_PAGE.TABLET)).map
    (fun p => p * NEWS_SLIDER.CARDS_PER_PAGE.TABLET)

/-- The `topRow` array of `reorderForTabletGrid`: per page, `card1 = items[pageStart]`
and `card2 = items[pageStart+1]` are pushed when truthy (out-of-range
access yields `undefined`, hence falsy, so the `if (card1)` guards are a
truthiness filter on the pair). -/
def tabletTopRow (items : List JSVal) (totalCards : Nat) : List JSVal :=
  (tabletPageStarts totalCards).flatMap
    (fun pageStart => [jsIndex items pageStart, jsIndex items (pageStart + 1)].filter truthy)

/-- The `bottomRow` array of `reorderForTabletGrid`: per page,
`card3 = items[pageStart+2]` and `card4 = items[pageStart+3]` are pushed
when truthy. -/
def tabletBottomRow (items : List JSVal) (totalCards : Nat) : List JSVal :=
  (tabletPageStarts totalCards).flatMap
    (fun pageStart => [jsIndex items (pageStart + 2), jsIndex items (pageStart + 3)].filter truthy)

/-- Embedding of `reorderForTabletGrid(items, totalCards)` from
`news-card-reorder.js`: group-of-four split, `null` padding up to
`halfCount = Math.ceil(totalCards / 2)`, concatenation, `filter(Boolean)`. -/
def reorderForTabletGrid (items : List JSVal) (totalCards : Nat) : List JSVal :=
  let halfCount := (totalCards + 1) / 2
  let topRow := tabletTopRow items totalCards
  let bottomRow := tabletBottomRow items totalCards
  let topPadded := topRow ++ List.replicate (halfCount - topRow.length) JSVal.vnull
  let bottomPadded := bottomRow ++ List.replicate (halfCount - bottomRow.length) JSVal.vnull
  (topPadded ++ bottomPadded).filter truthy

/-- Embedding of `reorderCardsForGrid(items, totalCards)` from
`news-card-reorder.js`, with `window.innerWidth` made an explicit `width`
argument: desktop widths return the input unchanged, tablet widths use the
group-of-four reorder, anything narrower the parity reorder. -/
def reorderCardsForGrid (width : Nat) (items : List JSVal) (totalCards : Nat) : List JSVal :=
  if width ≥ BREAKPOINTS.DESKTOP then items
  else if width ≥ BREAKPOINTS.TABLET then reorderForTabletGrid items totalCards
  else reorderForMobileGrid items totalCards

/-- Elements at even positions of a list (positions 0, 2, 4, ...): the
structural counterpart of `mobileTopRow` used in proofs. -/
def evens {α : Type} : List α → List α
  | [] => []
  | [a] => [a]
  | a :: _ :: r => a :: evens r

/-- Elements at odd positions of a list (positions 1, 3, 5, ...): the
structural counterpart of `mobileBottomRow` used in proofs. -/
def odds {α : Type} : List α → List α
  | [] => []
  | [_] => []
  | _ :: b :: r => b :: odds r

/-- Positions 0 and 1 of every consecutive group of four: the structural
counterpart of `tabletTopRow` used in proofs. -/
def tabletTop {α : Type} : List α → List α
  | [] => []
  | [a] => [a]
  | [a, b] => [a, b]
  | [a, b, _] => [a, b]
  | a :: b :: _ :: _ :: r => a :: b :: tabletTop r

/-- Positions 2 and 3 of every consecutive group of four: the structural
counterpart of `tabletBottomRow` used in proofs. -/
def tabletBot {α : Type} : List α → List α
  | [] => []
  | [_] => []
  | [_, _] => []
  | [_, _, c] => [c]
  | _ :: _ :: c :: d :: r => c :: d :: tabletBot r

/-- Reading a two-row grid page by page, row-major: each page shows the
next `cols` entries of the top row above the next `cols` entries of the
bottom row. -/
def interleaveRows {α : Type} (cols : Nat) (top bottom : List α) : List α :=
  if _hc : cols = 0 then []
  else if _hn : top.length + bottom.length = 0 then []
  else
    top.take cols ++ bottom.take cols ++
      interleaveRows cols (top.drop cols) (bottom.drop cols)
termination_by top.length + bottom.length
decreasing_by
  simp only [List.length_drop]
  omega

/-- Modelled from the spec: the grid-fill algorithm of the external
carousel library (not part of this repository).  With `fill: 'row'` and
two stacked rows the library places the first `ceil(n/2)` slides in the
visual top row across all pages and the rest in the bottom row; reading
the result page by page, row-major, left-to-right, interleaves `cols`
entries of each row per page (mobile `cols = 1`, tablet `cols = 2`).
Desktop uses a single row, so reading order is the list itself. -/
def readBackFromGrid (width : Nat) (m : List JSVal) : List JSVal :=
  if width ≥ BREAKPOINTS.DESKTOP then m
  else
    interleaveRows (if width ≥ BREAKPOINTS.TABLET then 2 else 1)
      (m.take ((m.length + 1) / 2)) (m.drop ((m.length + 1) / 2))

/-- Embedding of `getSwiperSlidesPerPage()` from
`source/js/sliders/news-navigation.js`, with `window.innerWidth` explicit:
desktop 3 Swiper slides per page, tablet 2, mobile 1. -/
def getSwiperSlidesPerPage (width : Nat) : Nat :=
  if width ≥ BREAKPOINTS.DESKTOP then NEWS_SLIDER.SLIDES_PER_PAGE.DESKTOP
  else if width ≥ BREAKPOINTS.TABLET then NEWS_SLIDER.SLIDES_PER_PAGE.TABLET
  else NEWS_SLIDER.SLIDES_PER_PAGE.MOBILE

/-- Target index computed by the previous-arrow click handler in
`setupArrowNavigation`: `Math.max(0, swiper.activeIndex - pageSize)`.
Indices are JavaScript numbers, embedded as `Int`. -/
def prevArrowTarget (width : Nat) (activeIndex : Int) : Int :=
  max 0 (activeIndex - (getSwiperSlidesPerPage width : Int))

/-- Target index computed by the next-arrow click handler in
`setupArrowNavigation`: `Math.min(totalSlides - 1, activeIndex + pageSize)`. -/
def nextArrowTarget (width : Nat) (activeIndex totalSlides : Int) : Int :=
  min (totalSlides - 1) (activeIndex + (getSwiperSlidesPerPage width : Int))

/-- The `startIndex` computed by `updatePaginationWindow` in the windowed
case (more than `MAX_VISIBLE` slides): branch on the active slide, then
clamp with `Math.max(0, Math.min(startIndex, totalSlides - MAX_VISIBLE))`. -/
def windowStart (totalSlides currentSlide : Int) : Int :=
  let maxVisible : Int := NEWS_SLIDER.PAGINATION.MAX_VISIBLE
  let startIndex : Int :=
    if currentSlide ≤ 2 then 0
    else if currentSlide ≥ totalSlides - 2 then totalSlides - maxVisible
    else currentSlide - 2
  max 0 (min startIndex (totalSlides - maxVisible))

/-- Observable outcome of `updatePaginationWindow`: either every
pagination control stays visible (which covers both the early return for
at most one bullet and the explicit show-all branch for 2 to 4 bullets),
or a sliding window of `MAX_VISIBLE` controls starting at `windowStart`. -/
inductive PaginationWindowView where
  | allVisible (total : Int)
  | windowed (start : Int)
  deriving DecidableEq

/-- Embedding of the window computation of `updatePaginationWindow`
(news slider pagination module): totals of at most `MAX_VISIBLE` show all
controls, larger totals get the sliding window. -/
def updatePaginationWindow (totalSlides currentSlide : Int) : PaginationWindowView :=
  if totalSlides ≤ (NEWS_SLIDER.PAGINATION.MAX_VISIBLE : Int) then
    .allVisible totalSlides
  else
    .windowed (windowStart totalSlides currentSlide)

/-- Embedding of `isLargeCard(index, totalCards)` from the news loader,
with `window.innerWidth` explicit: desktop marks the first card of every
page of three, tablet marks none, mobile marks the first
`halfCount = Math.ceil(totalCards / 2)` cards of the reordered list. -/
def isLargeCard (width index totalCards : Nat) : Bool :=
  if width ≥ BREAKPOINTS.DESKTOP then index % NEWS_SLIDER.CARDS_PER_PAGE.DESKTOP == 0
  else if width ≥ BREAKPOINTS.TABLET then false
  else decide (index < (totalCards + 1) / 2)

/-- The category-keyed news collection parsed from `/data/news.json`:
an association list from category key to its ordered items. -/
structure NewsData where
  categories : List (String × List ContentItem)
  deriving DecidableEq

/-- Reading `data[category]` on the parsed JSON object: the first binding
of the key, or `undefined` (here `none`) when the key is absent. -/
def NewsData.lookup (d : NewsData) (category : String) : Option (List ContentItem) :=
  (d.categories.find? (fun kv => kv.1 == category)).map (fun kv => kv.2)

/-- Outcome of the single network interaction of `fetchNewsData`:
the transport may fail, the response may have a non-ok HTTP status, the
body may fail to parse as JSON, or everything succeeds with parsed data. -/
inductive FetchOutcome where
  | transportError
  | httpError (status : Nat)
  | invalidJson
  | ok (data : NewsData)
  deriving DecidableEq

/-- What `fetchNewsData` does as seen by its caller: resolve with data or
reject (the thrown error is re-thrown after logging). -/
inductive FetchResult where
  | success (data : NewsData)
  | failure
  deriving DecidableEq

/-- Embedding of `fetchNewsData()` from `news-loader.js` as a function of
the module-level cache `newsData` and of the transport outcome.  Returns
the caller-visible result, the new cache, and whether a network request
was issued.  A populated cache is returned at once without touching the
network; a non-ok status throws; a parse failure throws; only a fully
successful fetch populates the cache (with the entire response). -/
def fetchNewsData (cache : Option NewsData) (outcome : FetchOutcome) :
    FetchResult × Option NewsData × Bool :=
  match cache with
  | some d => (.success d, some d, false)
  | none =>
    match outcome with
    | .transportError => (.failure, none, true)
    | .httpError _ => (.failure, none, true)
    | .invalidJson => (.failure, none, true)
    | .ok d => (.success d, some d, true)

/-- The `TAB_TO_CATEGORY` mapping of `news-loader.js`. -/
def TAB_TO_CATEGORY : List (String × String) :=
  [("all", "general"), ("volunteer", "volunteer"), ("internship", "internship"),
   ("career", "career"), ("travel", "travel")]

/-- Observable outcome of `handleTabClick`: unknown tab value (logged
error, no fetch), failed fetch (logged error, no render), missing or
empty category in the fetched data (logged warning, no render), or a
render of the category's items. -/
inductive TabOutcome where
  | unknownTab
  | fetchFailed
  | warnedNoItems
  | rendered (items : List ContentItem)
  deriving DecidableEq

/-- Embedding of the data path of `handleTabClick` from `news-loader.js`:
map the tab to a category key, await `fetchNewsData`, read
`data[category]`, and either warn (absent or empty category) or render.
Returns the outcome together with the cache left behind. -/
def handleTabClick (tabValue : String) (cache : Option NewsData)
    (outcome : FetchOutcome) : TabOutcome × Option NewsData :=
  match (TAB_TO_CATEGORY.find? (fun kv => kv.1 == tabValue)).map (fun kv => kv.2) with
  | none => (.unknownTab, cache)
  | some category =>
    match fetchNewsData cache outcome with
    | (.failure, c, _) => (.fetchFailed, c)
    | (.success d, c, _) =>
      match d.lookup category with
      | none => (.warnedNoItems, c)
      | some [] => (.warnedNoItems, c)
      | some items => (.rendered items, c)

/-- The DOM elements that `initNewsSlider` queries: presence of the
`.news__slider` container and of the two arrow buttons. -/
structure NewsSliderDom where
  sliderEl : Bool
  prevArrowEl : Bool
  nextArrowEl : Bool
  deriving DecidableEq

/-- Module-level state of `news-slider.js`: the stored Swiper instance
reference and the stored arrow element references. -/
structure NewsSliderState where
  swiperInstance : Option Nat
  prevArrow : Bool
  nextArrow : Bool
  deriving DecidableEq

/-- Embedding of the guard structure of `initNewsSlider()` from
`news-slider.js`: when `.news__slider` is absent the function returns
`null` before any assignment, leaving the module state untouched;
otherwise it stores the arrow references and a fresh Swiper instance
(represented by an opaque-to-the-claim numeric handle) and returns it. -/
def initNewsSlider (dom : NewsSliderDom) (st : NewsSliderState) :
    Option Nat × NewsSliderState :=
  if dom.sliderEl = false then (none, st)
  else
    let inst : Nat := 0
    (some inst, { swiperInstance := some inst, prevArrow := dom.prevArrowEl,
                  nextArrow := dom.nextArrowEl })

/-- A concrete news item used for counterexamples and witnesses. -/
def sampleItem (k : Nat) : ContentItem :=
  { date := Nat.repr k, title := "title", description := "description",
    image := "image", link := "link" }

/-- Three concrete news items, in canonical order. -/
def threeItems : List ContentItem := [sampleItem 1, sampleItem 2, sampleItem 3]

/-- Four concrete news items, in canonical order. -/
def fourItems : List ContentItem :=
  [sampleItem 1, sampleItem 2, sampleItem 3, sampleItem 4]

/-- Six concrete news items, in canonical order. -/
def sixItems : List ContentItem :=
  [sampleItem 1, sampleItem 2, sampleItem 3, sampleItem 4, sampleItem 5, sampleItem 6]

theorem twoStepInduction {α : Type} {P : List α → Prop} (h0 : P []) (h1 : ∀ a, P [a])
    (h2 : ∀ a b r, P r → P (a :: b :: r)) : ∀ l, P l := by
  have key : ∀ l, P l ∧ ∀ a, P (a :: l) := by
    intro l
    induction l with
    | nil => exact ⟨h0, h1⟩
    | cons x t ih => exact ⟨ih.2 x, fun a => h2 a x t ih.1⟩
  exact fun l => (key l).1

theorem fourStepInduction {α : Type} {P : List α → Prop} (h0 : P []) (h1 : ∀ a, P [a])
    (h2 : ∀ a b, P [a, b]) (h3 : ∀ a b c, P [a, b, c])
    (h4 : ∀ a b c d r, P r → P (a :: b :: c :: d :: r)) : ∀ l, P l := by
  have key : ∀ l, P l ∧ (∀ a, P (a :: l)) ∧ (∀ a b, P (a :: b :: l)) ∧
      (∀ a b c, P (a :: b :: c :: l)) := by
    intro l
    induction l with
    | nil => exact ⟨h0, h1, h2, h3⟩
    | cons x t ih =>
      exact ⟨ih.2.1 x, fun a => ih.2.2.1 a x, fun a b => ih.2.2.2 a b x,
        fun a b c => h4 a b c x t ih.1⟩
  exact fun l => (key l).1

theorem jsIndex_zero (a : JSVal) (l : List JSVal) : jsIndex (a :: l) 0 = a := rfl

theorem jsIndex_succ (a : JSVal) (l : List JSVal) (i : Nat) :
    jsIndex (a :: l) (i + 1) = jsIndex l i := rfl

theorem filter_map_comm {α β : Type} (f : α → β) (p : β → Bool) (l : List α) :
    (l.map f).filter p = (l.filter (fun a => p (f a))).map f := by
  induction l with
  | nil => rfl
  | cons a t ih =>
    simp only [List.map_cons, List.filter_cons, ih]
    cases h : p (f a) <;> simp

theorem range_add_two (k : Nat) :
    List.range (k + 2) = 0 :: 1 :: (List.range k).map (fun i => i + 2) := by
  rw [List.range_succ_eq_map, List.range_succ_eq_map, List.map_cons, List.map_map]
  rfl

theorem mobileTopRow_shift (a b : JSVal) (r : List JSVal) (k : Nat) :
    mobileTopRow (a :: b :: r) (k + 2) = a :: mobileTopRow r k := by
  unfold mobileTopRow
  rw [range_add_two]
  rw [List.filter_cons_of_pos (by decide), List.filter_cons_of_neg (by decide)]
  rw [filter_map_comm, List.map_cons]
  have hfe : (List.range k).filter (fun i => (i + 2) % 2 == 0) =
      (List.range k).filter (fun i => i % 2 == 0) :=
    List.filter_congr (fun i _ => by rw [Nat.add_mod_right])
  rw [hfe, List.map_map]
  rfl

theorem mobileBottomRow_shift (a b : JSVal) (r : List JSVal) (k : Nat) :
    mobileBottomRow (a :: b :: r) (k + 2) = b :: mobileBottomRow r k := by
  unfold mobileBottomRow
  rw [range_add_two]
  rw [List.filter_cons_of_neg (by decide), List.filter_cons_of_pos (by decide)]
  rw [filter_map_comm, List.map_cons]
  have hfe : (List.range k).filter (fun i => (i + 2) % 2 == 1) =
      (List.range k).filter (fun i => i % 2 == 1) :=
    List.filter_congr (fun i _ => by rw [Nat.add_mod_right])
  rw [hfe, List.map_map]
  rfl

theorem mobileTopRow_eq_evens : ∀ M : List JSVal, mobileTopRow M M.length = evens M := by
  refine twoStepInduction rfl (fun a => rfl) ?_
  intro a b r ih
  have hlen : (a :: b :: r).length = r.length + 2 := by simp
  rw [hlen, mobileTopRow_shift, ih, evens]

theorem mobileBottomRow_eq_odds : ∀ M : List JSVal, mobileBottomRow M M.length = odds M := by
  refine twoStepInduction rfl (fun a => rfl) ?_
  intro a b r ih
  have hlen : (a :: b :: r).length = r.length + 2 := by simp
  rw [hlen, mobileBottomRow_shift, ih, odds]

theorem mem_of_mem_evens {α : Type} : ∀ (M : List α) (x : α), x ∈ evens M → x ∈ M := by
  refine twoStepInduction (by simp [evens]) (fun a => by simp [evens]) ?_
  intro a b r ih x hx
  rw [evens] at hx
  rcases List.mem_cons.mp hx with h | h
  · simp [h]
  · have := ih x h
    simp [this]

theorem mem_of_mem_odds {α : Type} : ∀ (M : List α) (x : α), x ∈ odds M → x ∈ M := by
  refine twoStepInduction (by simp [odds]) (fun a => by simp [odds]) ?_
  intro a b r ih x hx
  rw [odds] at hx
  rcases List.mem_cons.mp hx with h | h
  · simp [h]
  · have := ih x h
    simp [this]

theorem filter_truthy_replicate (n : Nat) :
    (List.replicate n JSVal.vnull).filter truthy = [] := by
  induction n with
  | zero => rfl
  | succ k ih => rw [List.replicate_succ, List.filter_cons_of_neg (by decide), ih]

theorem reorderForMobileGrid_eq_streams (M : List JSVal)
    (h : ∀ x ∈ M, truthy x = true) :
    reorderForMobileGrid M M.length = evens M ++ odds M := by
  unfold reorderForMobileGrid
  rw [mobileTopRow_eq_evens, mobileBottomRow_eq_odds]
  rw [List.filter_append, List.filter_append, List.filter_append]
  rw [filter_truthy_replicate, filter_truthy_replicate]
  rw [List.filter_eq_self.mpr (fun x hx => h x (mem_of_mem_evens M x hx))]
  rw [List.filter_eq_self.mpr (fun x hx => h x (mem_of_mem_odds M x hx))]
  simp

theorem evens_append_odds_perm {α : Type} : ∀ M : List α, (evens M ++ odds M).Perm M := by
  refine twoStepInduction (by simp [evens, odds]) (fun a => by simp [evens, odds]) ?_
  intro a b r ih
  rw [evens, odds]
  refine List.Perm.trans ?_ ((ih.cons b).cons a)
  rw [List.cons_append]
  exact (List.perm_middle).cons a

theorem evens_length {α : Type} : ∀ M : List α, (evens M).length = (M.length + 1) / 2 := by
  refine twoStepInduction (by simp [evens]) (fun a => by simp [evens]) ?_
  intro a b r ih
  rw [evens]
  simp only [List.length_cons]
  rw [ih]
  omega

theorem tabletPageStarts_shift (k : Nat) :
    tabletPageStarts (k + 4) = 0 :: (tabletPageStarts k).map (fun p => p + 4) := by
  unfold tabletPageStarts
  simp only [NEWS_SLIDER.CARDS_PER_PAGE.TABLET]
  have h : (k + 4 + 4 - 1) / 4 = (k + 4 - 1) / 4 + 1 := by omega
  rw [h, List.range_succ_eq_map, List.map_cons, List.map_map, List.map_map]
  refine congrArg (fun t => 0 * 4 :: t) (List.map_congr_left ?_)
  intro i _
  show (i + 1) * 4 = i * 4 + 4
  omega

theorem tabletTopRow_shift (a b c d : JSVal) (r : List JSVal) (k : Nat) :
    tabletTopRow (a :: b :: c :: d :: r) (k + 4) =
      [a, b].filter truthy ++ tabletTopRow r k := by
  unfold tabletTopRow
  rw [tabletPageStarts_shift, List.flatMap_cons, List.flatMap_map]
  rfl

theorem tabletBottomRow_shift (a b c d : JSVal) (r : List JSVal) (k : Nat) :
    tabletBottomRow (a :: b :: c :: d :: r) (k + 4) =
      [c, d].filter truthy ++ tabletBottomRow r k := by
  unfold tabletBottomRow
  rw [tabletPageStarts_shift, List.flatMap_cons, List.flatMap_map]
  rfl

theorem tabletTopRow_eq_stream :
    ∀ M : List JSVal, (∀ x ∈ M, truthy x = true) →
      tabletTopRow M M.length = tabletTop M := by
  refine fourStepInduction (fun _ => rfl) ?_ ?_ ?_ ?_
  · intro a h
    have ha : truthy a = true := h a (by simp)
    have hlen : ([a] : List JSVal).length = 1 := by simp
    rw [hlen]
    show ([jsIndex [a] 0, jsIndex [a] 1].filter truthy) ++ [] = [a]
    rw [jsIndex_zero]
    show ([a, JSVal.vundefined].filter truthy) ++ [] = [a]
    rw [List.filter_cons_of_pos ha, List.filter_cons_of_neg (by decide)]
    rfl
  · intro a b h
    have ha : truthy a = true := h a (by simp)
    have hb : truthy b = true := h b (by simp)
    have hlen : ([a, b] : List JSVal).length = 2 := by simp
    rw [hlen]
    show ([jsIndex [a, b] 0, jsIndex [a, b] 1].filter truthy) ++ [] = [a, b]
    rw [jsIndex_zero]
    show ([a, b].filter truthy) ++ [] = [a, b]
    rw [List.filter_cons_of_pos ha, List.filter_cons_of_pos hb]
    rfl
  · intro a b c h
    have ha : truthy a = true := h a (by simp)
    have hb : truthy b = true := h b (by simp)
    have hlen : ([a, b, c] : List JSVal).length = 3 := by simp
    rw [hlen]
    show ([jsIndex [a, b, c] 0, jsIndex [a, b, c] 1].filter truthy) ++ [] = [a, b]
    rw [jsIndex_zero]
    show ([a, b].filter truthy) ++ [] = [a, b]
    rw [List.filter_cons_of_pos ha, List.filter_cons_of_pos hb]
    rfl
  · intro a b c d r ih h
    have hlen : (a :: b :: c :: d :: r).length = r.length + 4 := by simp
    have ha : truthy a = true := h a (by simp)
    have hb : truthy b = true := h b (by simp)
    have hr : ∀ x ∈ r, truthy x = true := fun x hx => h x (by simp [hx])
    rw [hlen, tabletTopRow_shift, ih hr, List.filter_cons_of_pos ha,
      List.filter_cons_of_pos hb]
    rfl

theorem tabletBottomRow_eq_stream :
    ∀ M : List JSVal, (∀ x ∈ M, truthy x = true) →
      tabletBottomRow M M.length = tabletBot M := by
  refine fourStepInduction (fun _ => rfl) ?_ ?_ ?_ ?_
  · intro a _
    have hlen : ([a] : List JSVal).length = 1 := by simp
    rw [hlen]
    show ([jsIndex [a] 2, jsIndex [a] 3].filter truthy) ++ [] = []
    show ([JSVal.vundefined, JSVal.vundefined].filter truthy) ++ [] = []
    rw [List.filter_cons_of_neg (by decide), List.filter_cons_of_neg (by decide)]
    rfl
  · intro a b _
    have hlen : ([a, b] : List JSVal).length = 2 := by simp
    rw [hlen]
    show ([jsIndex [a, b] 2, jsIndex [a, b] 3].filter truthy) ++ [] = []
    show ([JSVal.vundefined, JSVal.vundefined].filter truthy) ++ [] = []
    rw [List.filter_cons_of_neg (by decide), List.filter_cons_of_neg (by decide)]
    rfl
  · intro a b c h
    have hc : truthy c = true := h c (by simp)
    have hlen : ([a, b, c] : List JSVal).length = 3 := by simp
    rw [hlen]
    show ([jsIndex [a, b, c] 2, jsIndex [a, b, c] 3].filter truthy) ++ [] = [c]
    show ([c, JSVal.vundefined].filter truthy) ++ [] = [c]
    rw [List.filter_cons_of_pos hc, List.filter_cons_of_neg (by decide)]
    rfl
  · intro a b c d r ih h
    have hlen : (a :: b :: c :: d :: r).length = r.length + 4 := by simp
    have hc : truthy c = true := h c (by simp)
    have hd : truthy d = true := h d (by simp)
    have hr : ∀ x ∈ r, truthy x = true := fun x hx => h x (by simp [hx])
    rw [hlen, tabletBottomRow_shift, ih hr, List.filter_cons_of_pos hc,
      List.filter_cons_of_pos hd]
    rfl

theorem mem_of_mem_tabletTop {α : Type} :
    ∀ (M : List α) (x : α), x ∈ tabletTop M → x ∈ M := by
  refine fourStepInduction (by simp [tabletTop]) (fun a => by simp [tabletTop])
    (fun a b => by simp [tabletTop]) (fun a b c x hx => ?_) ?_
  · rw [tabletTop] at hx
    rcases List.mem_cons.mp hx with h | h
    · simp [h]
    · simp at h
      simp [h]
  · intro a b c d r ih x hx
    rw [tabletTop] at hx
    rcases List.mem_cons.mp hx with h | h
    · simp [h]
    · rcases List.mem_cons.mp h with h2 | h2
      · simp [h2]
      · have := ih x h2
        simp [this]

theorem mem_of_mem_tabletBot {α : Type} :
    ∀ (M : List α) (x : α), x ∈ tabletBot M → x ∈ M := by
  refine fourStepInduction (by simp [tabletBot]) (fun a => by simp [tabletBot])
    (fun a b => by simp [tabletBot]) (fun a b c x hx => ?_) ?_
  · rw [tabletBot] at hx
    simp at hx
    simp [hx]
  · intro a b c d r ih x hx
    rw [tabletBot] at hx
    rcases List.mem_cons.mp hx with h | h
    · simp [h]
    · rcases List.mem_cons.mp h with h2 | h2
      · simp [h2]
      · have := ih x h2
        simp [this]

theorem reorderForTabletGrid_eq_streams (M : List JSVal)
    (h : ∀ x ∈ M, truthy x = true) :
    reorderForTabletGrid M M.length = tabletTop M ++ tabletBot M := by
  unfold reorderForTabletGrid
  rw [tabletTopRow_eq_stream M h, tabletBottomRow_eq_stream M h]
  rw [List.filter_append, List.filter_append, List.filter_append]
  rw [filter_truthy_replicate, filter_truthy_replicate]
  rw [List.filter_eq_self.mpr (fun x hx => h x (mem_of_mem_tabletTop M x hx))]
  rw [List.filter_eq_self.mpr (fun x hx => h x (mem_of_mem_tabletBot M x hx))]
  simp

theorem tabletTop_append_bot_perm {α : Type} :
    ∀ M : List α, (tabletTop M ++ tabletBot M).Perm M := by
  refine fourStepInduction (by simp [tabletTop, tabletBot])
    (fun a => by simp [tabletTop, tabletBot])
    (fun a b => by simp [tabletTop, tabletBot])
    (fun a b c => by simp [tabletTop, tabletBot]) ?_
  intro a b c d r ih
  rw [tabletTop, tabletBot]
  refine List.Perm.trans ?_ ((((ih.cons d).cons c).cons b).cons a)
  rw [List.cons_append, List.cons_append]
  refine ((?_ : (tabletTop r ++ c :: d :: tabletBot r).Perm
    (c :: d :: (tabletTop r ++ tabletBot r))).cons b).cons a
  refine List.Perm.trans List.perm_middle ?_
  exact (List.perm_middle).cons c

theorem tabletTop_length {α : Type} :
    ∀ M : List α, (tabletTop M).length = 2 * (M.length / 4) + min (M.length % 4) 2 := by
  refine fourStepInduction (by simp [tabletTop]) (fun a => by simp [tabletTop])
    (fun a b => by simp [tabletTop]) (fun a b c => by simp [tabletTop]) ?_
  intro a b c d r ih
  rw [tabletTop]
  simp only [List.length_cons]
  rw [ih]
  have h4 : (r.length + 4) / 4 = r.length / 4 + 1 := by omega
  have h5 : (r.length + 4) % 4 = r.length % 4 := by omega
  simp only [h4, h5]
  omega

theorem interleaveRows_nil {α : Type} (cols : Nat) :
    interleaveRows cols ([] : List α) [] = [] := by
  rw [interleaveRows]
  simp

theorem interleaveRows_step {α : Type} (cols : Nat) (top bottom : List α)
    (hc : cols ≠ 0) (hn : top.length + bottom.length ≠ 0) :
    interleaveRows cols top bottom =
      top.take cols ++ bottom.take cols ++
        interleaveRows cols (top.drop cols) (bottom.drop cols) := by
  rw [interleaveRows]
  rw [dif_neg hc, dif_neg hn]

theorem interleave_one_evens_odds {α : Type} :
    ∀ M : List α, interleaveRows 1 (evens M) (odds M) = M := by
  refine twoStepInduction (by simp [evens, odds, interleaveRows_nil]) (fun a => ?_) ?_
  · rw [evens, odds, interleaveRows_step 1 [a] [] (by decide) (by simp)]
    simp [interleaveRows_nil]
  · intro a b r ih
    rw [evens, odds, interleaveRows_step 1 (a :: evens r) (b :: odds r) (by decide) (by simp)]
    simp only [List.take_succ_cons, List.take_zero, List.drop_succ_cons, List.drop_zero]
    rw [ih]
    rfl

theorem interleave_two_tablet {α : Type} :
    ∀ M : List α, interleaveRows 2 (tabletTop M) (tabletBot M) = M := by
  refine fourStepInduction (by simp [tabletTop, tabletBot, interleaveRows_nil])
    (fun a => ?_) (fun a b => ?_) (fun a b c => ?_) ?_
  · rw [tabletTop, tabletBot, interleaveRows_step 2 [a] [] (by decide) (by simp)]
    simp [interleaveRows_nil]
  · rw [tabletTop, tabletBot, interleaveRows_step 2 [a, b] [] (by decide) (by simp)]
    simp [interleaveRows_nil]
  · rw [tabletTop, tabletBot, interleaveRows_step 2 [a, b] [c] (by decide) (by simp)]
    simp [interleaveRows_nil]
  · intro a b c d r ih
    rw [tabletTop, tabletBot, interleaveRows_step 2 (a :: b :: tabletTop r)
      (c :: d :: tabletBot r) (by decide) (by simp)]
    simp only [List.take_succ_cons, List.take_zero, List.drop_succ_cons, List.drop_zero]
    rw [ih]
    rfl

theorem items_truthy (L : List ContentItem) :
    ∀ x ∈ L.map JSVal.item, truthy x = true := by
  intro x hx
  rcases List.mem_map.mp hx with ⟨it, _, rfl⟩
  rfl

theorem readBack_desktop (width : Nat) (h : BREAKPOINTS.DESKTOP ≤ width)
    (m : List JSVal) : readBackFromGrid width m = m := by
  unfold readBackFromGrid
  rw [if_pos h]

theorem readBack_tablet (width : Nat) (h1 : BREAKPOINTS.TABLET ≤ width)
    (h2 : width < BREAKPOINTS.DESKTOP) (m : List JSVal) :
    readBackFromGrid width m =
      interleaveRows 2 (m.take ((m.length + 1) / 2)) (m.drop ((m.length + 1) / 2)) := by
  unfold readBackFromGrid
  rw [if_neg (by omega), if_pos h1]

theorem readBack_mobile (width : Nat) (h : width < BREAKPOINTS.TABLET)
    (m : List JSVal) :
    readBackFromGrid width m =
      interleaveRows 1 (m.take ((m.length + 1) / 2)) (m.drop ((m.length + 1) / 2)) := by
  unfold readBackFromGrid
  have h2 : width < BREAKPOINTS.DESKTOP := by
    have : BREAKPOINTS.TABLET < BREAKPOINTS.DESKTOP := by decide
    omega
  rw [if_neg (by omega), if_neg (by omega)]

theorem reorder_tablet_streams (width : Nat) (h1 : BREAKPOINTS.TABLET ≤ width)
    (h2 : width < BREAKPOINTS.DESKTOP) (L : List ContentItem) :
    reorderCardsForGrid width (L.map JSVal.item) L.length =
      tabletTop (L.map JSVal.item) ++ tabletBot (L.map JSVal.item) := by
  unfold reorderCardsForGrid
  rw [if_neg (by omega), if_pos h1]
  have hlen : L.length = (L.map JSVal.item).length := (List.length_map L JSVal.item).symm
  rw [hlen]
  exact reorderForTabletGrid_eq_streams (L.map JSVal.item) (items_truthy L)

theorem reorder_mobile_streams (width : Nat) (h : width < BREAKPOINTS.TABLET)
    (L : List ContentItem) :
    reorderCardsForGrid width (L.map JSVal.item) L.length =
      evens (L.map JSVal.item) ++ odds (L.map JSVal.item) := by
  unfold reorderCardsForGrid
  have h2 : width < BREAKPOINTS.DESKTOP := by
    have : BREAKPOINTS.TABLET < BREAKPOINTS.DESKTOP := by decide
    omega
  rw [if_neg (by omega), if_neg (by omega)]
  have hlen : L.length = (L.map JSVal.item).length := (List.length_map L JSVal.item).symm
  rw [hlen]
  exact reorderForMobileGrid_eq_streams (L.map JSVal.item) (items_truthy L)

/-- Claim C1: for every list of items `L` and every viewport width, the
output of `reorderCardsForGrid(L, L.length)` is a permutation of `L`: it
has the same length and the same multiset of elements. -/
theorem reorder_is_permutation (width : Nat) (L : List ContentItem) :
    (reorderCardsForGrid width (L.map JSVal.item) L.length).Perm (L.map JSVal.item) ∧
    (reorderCardsForGrid width (L.map JSVal.item) L.length).length = L.length := by
  have hperm : (reorderCardsForGrid width (L.map JSVal.item) L.length).Perm
      (L.map JSVal.item) := by
    by_cases hd : BREAKPOINTS.DESKTOP ≤ width
    · unfold reorderCardsForGrid
      rw [if_pos hd]
    · by_cases ht : BREAKPOINTS.TABLET ≤ width
      · rw [reorder_tablet_streams width ht (by omega) L]
        exact tabletTop_append_bot_perm (L.map JSVal.item)
      · rw [reorder_mobile_streams width (by omega) L]
        exact evens_append_odds_perm (L.map JSVal.item)
  refine ⟨hperm, ?_⟩
  rw [hperm.length_eq, List.length_map]

/-- Evaluation rule for reading a two-column grid with at least two
entries in each row. -/
theorem interleaveRows_two_cons {α : Type} (a b c d : α) (T B : List α) :
    interleaveRows 2 (a :: b :: T) (c :: d :: B) =
      a :: b :: c :: d :: interleaveRows 2 T B := by
  rw [interleaveRows_step 2 _ _ (by decide) (by simp)]
  simp [List.take_succ_cons, List.take_zero, List.drop_succ_cons, List.drop_zero]

/-- Evaluation rule for reading a two-column grid with one entry left in
each row. -/
theorem interleaveRows_two_pair {α : Type} (x y : α) :
    interleaveRows 2 [x] [y] = [x, y] := by
  rw [interleaveRows_step 2 _ _ (by decide) (by simp)]
  simp [interleaveRows_nil]

/-- Claim C2, counterexample: at a tablet width, re-simulating the grid
fill over the reorder of the six canonical items and reading the grid
page by page, row-major, does NOT reproduce the original order (it yields
items 1,2,6,3,5,4).  The group-of-four top stream has length 4, but the
grid splits the six reordered cards at `ceil(6/2) = 3`, so the streams
misalign.  This needs at least six items: with exactly two items the
single page reads the whole list back unchanged. -/
theorem reorder_roundtrip_counterexample :
    readBackFromGrid 768 (reorderCardsForGrid 768 (sixItems.map JSVal.item) 6) ≠
      sixItems.map JSVal.item := by
  have h1 : reorderCardsForGrid 768 (sixItems.map JSVal.item) 6 =
      [sampleItem 1, sampleItem 2, sampleItem 5, sampleItem 6,
        sampleItem 3, sampleItem 4].map JSVal.item := by decide
  rw [h1, readBack_tablet 768 (by decide) (by decide)]
  have hlen : (([sampleItem 1, sampleItem 2, sampleItem 5, sampleItem 6,
      sampleItem 3, sampleItem 4].map JSVal.item).length + 1) / 2 = 3 := by decide
  rw [hlen]
  have htake : ([sampleItem 1, sampleItem 2, sampleItem 5, sampleItem 6,
      sampleItem 3, sampleItem 4].map JSVal.item).take 3 =
      [sampleItem 1, sampleItem 2, sampleItem 5].map JSVal.item := by decide
  have hdrop : ([sampleItem 1, sampleItem 2, sampleItem 5, sampleItem 6,
      sampleItem 3, sampleItem 4].map JSVal.item).drop 3 =
      [sampleItem 6, sampleItem 3, sampleItem 4].map JSVal.item := by decide
  rw [htake, hdrop]
  simp only [List.map_cons, List.map_nil]
  rw [interleaveRows_two_cons, interleaveRows_two_pair]
  intro hcontra
  exact absurd hcontra (by decide)

/-- Claim C2, amended: simulating the external grid fill over
`reorderCardsForGrid(L, L.length)` and reading the grid page by page,
row-major, reproduces `L` for every list on desktop and mobile widths,
and on tablet widths whenever `L.length % 4 ≠ 2` or `L.length = 2` (a
single tablet page reads the whole list back unchanged).  In the
remaining tablet case — length 2 modulo 4 and at least 6 — the top
stream is one longer than the grid's row split and the round-trip can
fail, as the counterexample shows at six items. -/
theorem reorder_roundtrip_amended (width : Nat) (L : List ContentItem)
    (h : BREAKPOINTS.TABLET ≤ width → width < BREAKPOINTS.DESKTOP →
      L.length % 4 ≠ 2 ∨ L.length = 2) :
    readBackFromGrid width (reorderCardsForGrid width (L.map JSVal.item) L.length) =
      L.map JSVal.item := by
  by_cases hd : BREAKPOINTS.DESKTOP ≤ width
  · rw [readBack_desktop width hd]
    unfold reorderCardsForGrid
    rw [if_pos hd]
  · by_cases ht : BREAKPOINTS.TABLET ≤ width
    · rcases h ht (by omega) with hmod | h2len
      · rw [reorder_tablet_streams width ht (by omega) L,
          readBack_tablet width ht (by omega)]
        have hlen2 : (tabletTop (L.map JSVal.item) ++ tabletBot (L.map JSVal.item)).length =
            (L.map JSVal.item).length := (tabletTop_append_bot_perm _).length_eq
        rw [hlen2]
        have htl : (tabletTop (L.map JSVal.item)).length =
            ((L.map JSVal.item).length + 1) / 2 := by
          rw [tabletTop_length, List.length_map]
          omega
        rw [← htl, List.take_left, List.drop_left]
        exact interleave_two_tablet _
      · rcases L with _ | ⟨x, L'⟩
        · simp at h2len
        rcases L' with _ | ⟨y, L''⟩
        · simp at h2len
        rcases L'' with _ | ⟨z, t⟩
        · rw [reorder_tablet_streams width ht (by omega) [x, y]]
          simp only [List.map_cons, List.map_nil]
          rw [show tabletTop [JSVal.item x, JSVal.item y] =
              [JSVal.item x, JSVal.item y] from rfl,
            show tabletBot [JSVal.item x, JSVal.item y] = ([] : List JSVal) from rfl,
            List.append_nil, readBack_tablet width ht (by omega)]
          have hl : ([JSVal.item x, JSVal.item y] : List JSVal).length = 2 := rfl
          rw [hl, show (2 + 1) / 2 = 1 from rfl]
          rw [show ([JSVal.item x, JSVal.item y] : List JSVal).take 1 =
              [JSVal.item x] from rfl,
            show ([JSVal.item x, JSVal.item y] : List JSVal).drop 1 =
              [JSVal.item y] from rfl]
          exact interleaveRows_two_pair (JSVal.item x) (JSVal.item y)
        · simp at h2len
    · rw [reorder_mobile_streams width (by omega) L, readBack_mobile width (by omega)]
      have hlen2 : (evens (L.map JSVal.item) ++ odds (L.map JSVal.item)).length =
          (L.map JSVal.item).length := (evens_append_odds_perm _).length_eq
      rw [hlen2]
      have htl : (evens (L.map JSVal.item)).length =
          ((L.map JSVal.item).length + 1) / 2 := evens_length _
      rw [← htl, List.take_left, List.drop_left]
      exact interleave_one_evens_odds _

/-- Witness for the amended claim C2 at a tablet width with four items. -/
theorem reorder_roundtrip_amended_witness :
    readBackFromGrid 768
        (reorderCardsForGrid 768 (fourItems.map JSVal.item) fourItems.length) =
      fourItems.map JSVal.item :=
  reorder_roundtrip_amended 768 fourItems (fun _ _ => Or.inl (by decide))

/-- Claim C5, counterexample: `reorderCardsForGrid` is not idempotent.  At
a mobile width, reordering three items gives 1,3,2, and reordering that
output again gives back 1,2,3, which differs from 1,3,2. -/
theorem reorder_idempotent_counterexample :
    reorderCardsForGrid 375 (reorderCardsForGrid 375 (threeItems.map JSVal.item) 3) 3 ≠
      reorderCardsForGrid 375 (threeItems.map JSVal.item) 3 := by decide

/-- Claim C5, amended: `reorderCardsForGrid` is idempotent on desktop
widths, where it is the identity; on mobile and tablet widths
re-application generally changes the list (see the counterexample), which
is why callers must always reorder from the canonical source list. -/
theorem reorder_idempotent_desktop (width : Nat) (h : BREAKPOINTS.DESKTOP ≤ width)
    (items : List JSVal) (totalCards : Nat) :
    reorderCardsForGrid width (reorderCardsForGrid width items totalCards) totalCards =
      reorderCardsForGrid width items totalCards := by
  unfold reorderCardsForGrid
  rw [if_pos h, if_pos h]

/-- Witness for the amended claim C5 at the desktop breakpoint. -/
theorem reorder_idempotent_desktop_witness :
    reorderCardsForGrid 1440 (reorderCardsForGrid 1440 (threeItems.map JSVal.item) 3) 3 =
      reorderCardsForGrid 1440 (threeItems.map JSVal.item) 3 :=
  reorder_idempotent_desktop 1440 (by decide) (threeItems.map JSVal.item) 3

/-- Claim C6: on every tablet width, reordering the canonical items
1..8 produces 1,2,5,6,3,4,7,8, and on every mobile width reordering
1..6 produces 1,3,5,2,4,6. -/
theorem reorder_scenarios (width : Nat) :
    (BREAKPOINTS.TABLET ≤ width → width < BREAKPOINTS.DESKTOP →
      reorderCardsForGrid width (([1, 2, 3, 4, 5, 6, 7, 8] : List Int).map JSVal.vnum) 8 =
        ([1, 2, 5, 6, 3, 4, 7, 8] : List Int).map JSVal.vnum) ∧
    (width < BREAKPOINTS.TABLET →
      reorderCardsForGrid width (([1, 2, 3, 4, 5, 6] : List Int).map JSVal.vnum) 6 =
        ([1, 3, 5, 2, 4, 6] : List Int).map JSVal.vnum) := by
  constructor
  · intro h1 h2
    unfold reorderCardsForGrid
    rw [if_neg (by omega), if_pos h1]
    decide
  · intro h1
    have h2 : width < BREAKPOINTS.DESKTOP := by
      have : BREAKPOINTS.TABLET < BREAKPOINTS.DESKTOP := by decide
      omega
    unfold reorderCardsForGrid
    rw [if_neg (by omega), if_neg (by omega)]
    decide

/-- Witness for claim C6 at the tablet breakpoint and at a mobile width. -/
theorem reorder_scenarios_witness :
    reorderCardsForGrid 768 (([1, 2, 3, 4, 5, 6, 7, 8] : List Int).map JSVal.vnum) 8 =
        ([1, 2, 5, 6, 3, 4, 7, 8] : List Int).map JSVal.vnum ∧
    reorderCardsForGrid 375 (([1, 2, 3, 4, 5, 6] : List Int).map JSVal.vnum) 6 =
        ([1, 3, 5, 2, 4, 6] : List Int).map JSVal.vnum :=
  ⟨(reorder_scenarios 768).1 (by decide) (by decide), (reorder_scenarios 375).2 (by decide)⟩

/-- Claim C3: with at most 4 slides every pagination control is shown;
with more than 4 slides and any active index in range, the computed
window start lies in `[0, totalSlides - 4]`, keeps the active index
inside the 4-wide window, pins to 0 for active indices up to 2, pins to
`totalSlides - 4` for the last two slides, and is `activeIndex - 2` in
between, clamped in all cases. -/
theorem pagination_window_invariants (totalSlides activeIndex : Int) :
    (totalSlides ≤ 4 →
      updatePaginationWindow totalSlides activeIndex = .allVisible totalSlides) ∧
    (4 < totalSlides →
      updatePaginationWindow totalSlides activeIndex =
        .windowed (windowStart totalSlides activeIndex)) ∧
    (4 < totalSlides → 0 ≤ activeIndex → activeIndex < totalSlides →
      0 ≤ windowStart totalSlides activeIndex ∧
      windowStart totalSlides activeIndex ≤ totalSlides - 4 ∧
      windowStart totalSlides activeIndex ≤ activeIndex ∧
      activeIndex ≤ windowStart totalSlides activeIndex + 3 ∧
      (activeIndex ≤ 2 → windowStart totalSlides activeIndex = 0) ∧
      (totalSlides - 2 ≤ activeIndex →
        windowStart totalSlides activeIndex = totalSlides - 4) ∧
      (2 < activeIndex → activeIndex < totalSlides - 2 →
        windowStart totalSlides activeIndex = activeIndex - 2)) := by
  refine ⟨?_, ?_, ?_⟩
  · intro h
    simp only [updatePaginationWindow, NEWS_SLIDER.PAGINATION.MAX_VISIBLE, Nat.cast_ofNat]
    rw [if_pos h]
  · intro h
    simp only [updatePaginationWindow, NEWS_SLIDER.PAGINATION.MAX_VISIBLE, Nat.cast_ofNat]
    rw [if_neg (by omega)]
  · intro h h0 h1
    simp only [windowStart, NEWS_SLIDER.PAGINATION.MAX_VISIBLE, Nat.cast_ofNat]
    split_ifs <;> refine ⟨by omega, by omega, by omega, by omega, by omega, by omega, by omega⟩

/-- Witness for claim C3: the spec scenarios with 10 slides (start pinned
to 0 means windowed start 6 at the last slide) and the all-visible state
with 3 slides. -/
theorem pagination_window_invariants_witness :
    updatePaginationWindow 3 1 = .allVisible 3 ∧
    updatePaginationWindow 10 9 = .windowed (windowStart 10 9) ∧
    windowStart 10 9 = 10 - 4 ∧ windowStart 10 0 = 0 :=
  ⟨(pagination_window_invariants 3 1).1 (by omega),
   (pagination_window_invariants 10 9).2.1 (by omega),
   ((pagination_window_invariants 10 9).2.2 (by omega) (by omega)
     (by omega)).2.2.2.2.2.1 (by omega),
   ((pagination_window_invariants 10 0).2.2 (by omega) (by omega)
     (by omega)).2.2.2.2.1 (by omega)⟩

/-- Claim C4: the previous-arrow handler targets
`max(0, activeIndex - pageSize)` and the next-arrow handler targets
`min(totalSlides - 1, activeIndex + pageSize)`, with the viewport page
sizes 3 (desktop), 2 (tablet), 1 (mobile); hence the next target never
exceeds the last slide index and the previous target is never negative. -/
theorem arrow_targets (width : Nat) (activeIndex totalSlides : Int)
    (_h0 : 0 ≤ activeIndex) (_h1 : activeIndex < totalSlides) :
    prevArrowTarget width activeIndex =
      max 0 (activeIndex - (getSwiperSlidesPerPage width : Int)) ∧
    nextArrowTarget width activeIndex totalSlides =
      min (totalSlides - 1) (activeIndex + (getSwiperSlidesPerPage width : Int)) ∧
    0 ≤ prevArrowTarget width activeIndex ∧
    nextArrowTarget width activeIndex totalSlides ≤ totalSlides - 1 ∧
    (BREAKPOINTS.DESKTOP ≤ width → getSwiperSlidesPerPage width = 3) ∧
    (BREAKPOINTS.TABLET ≤ width → width < BREAKPOINTS.DESKTOP →
      getSwiperSlidesPerPage width = 2) ∧
    (width < BREAKPOINTS.TABLET → getSwiperSlidesPerPage width = 1) := by
  refine ⟨rfl, rfl, le_max_left _ _, min_le_left _ _, ?_, ?_, ?_⟩
  · intro h
    simp only [getSwiperSlidesPerPage]
    rw [if_pos h]
    rfl
  · intro ht hd
    simp only [getSwiperSlidesPerPage]
    rw [if_neg (by omega), if_pos ht]
    rfl
  · intro hm
    have hd : width < BREAKPOINTS.DESKTOP := by
      have : BREAKPOINTS.TABLET < BREAKPOINTS.DESKTOP := by decide
      omega
    simp only [getSwiperSlidesPerPage]
    rw [if_neg (by omega), if_neg (by omega)]
    rfl

/-- Witness for claim C4: the spec scenario activeIndex 4, desktop page
size 3, 12 slides (next target 7, previous target 1). -/
theorem arrow_targets_witness :
    0 ≤ prevArrowTarget 1440 4 ∧ nextArrowTarget 1440 4 12 ≤ 12 - 1 ∧
    prevArrowTarget 1440 4 = 1 ∧ nextArrowTarget 1440 4 12 = 7 :=
  ⟨(arrow_targets 1440 4 12 (by omega) (by omega)).2.2.1,
   (arrow_targets 1440 4 12 (by omega) (by omega)).2.2.2.1,
   by decide, by decide⟩

/-- Claim C7: relative to the reordered list, `isLargeCard` is true on
desktop exactly on indices divisible by 3 (the cards-per-desktop-page),
always false on tablet, and true on mobile exactly for indices below
`ceil(totalCards / 2)`. -/
theorem isLargeCard_spec (width index totalCards : Nat) (_h : index < totalCards) :
    (BREAKPOINTS.DESKTOP ≤ width →
      (isLargeCard width index totalCards = true ↔ index % 3 = 0)) ∧
    (BREAKPOINTS.TABLET ≤ width → width < BREAKPOINTS.DESKTOP →
      isLargeCard width index totalCards = false) ∧
    (width < BREAKPOINTS.TABLET →
      (isLargeCard width index totalCards = true ↔ index < (totalCards + 1) / 2)) := by
  refine ⟨?_, ?_, ?_⟩
  · intro hd
    simp only [isLargeCard, NEWS_SLIDER.CARDS_PER_PAGE.DESKTOP]
    rw [if_pos hd]
    simp
  · intro ht hd
    simp only [isLargeCard]
    rw [if_neg (by omega), if_pos ht]
  · intro hm
    have hd : width < BREAKPOINTS.DESKTOP := by
      have : BREAKPOINTS.TABLET < BREAKPOINTS.DESKTOP := by decide
      omega
    simp only [isLargeCard]
    rw [if_neg (by omega), if_neg (by omega)]
    simp

/-- Witness for claim C7 on all three viewport classes. -/
theorem isLargeCard_spec_witness :
    isLargeCard 1500 3 5 = true ∧ isLargeCard 800 3 5 = false ∧
    isLargeCard 375 1 5 = true :=
  ⟨((isLargeCard_spec 1500 3 5 (by omega)).1 (by decide)).mpr (by decide),
   (isLargeCard_spec 800 3 5 (by omega)).2.1 (by decide) (by decide),
   ((isLargeCard_spec 375 1 5 (by omega)).2.2 (by decide)).mpr (by decide)⟩

/-- A fetched collection that contains only the general category, used to
probe the absent-category behavior. -/
def generalOnlyData : NewsData := { categories := [("general", [sampleItem 1])] }

/-- Claim C8, counterexample: when the requested category key is absent
from the (successfully fetched) response, `handleTabClick` logs a warning
and renders nothing; the operation does not fail with a `FormatError` —
no error is raised at all. -/
theorem fetch_category_absent_counterexample :
    (handleTabClick "career" none (.ok generalOnlyData)).1 = .warnedNoItems ∧
    (handleTabClick "career" none (.ok generalOnlyData)).1 ≠ .fetchFailed := by
  exact ⟨by decide, by decide⟩

/-- Claim C8, amended: the content fetch fails if the transport fails,
the HTTP status is not ok, or the body is not valid JSON; on success the
entire response is cached and every later call returns the cached data
without a network request.  An absent category key, however, does not
make the operation fail: the tab handler logs a warning and keeps the
cache, rendering nothing. -/
theorem content_store_contract (outcome : FetchOutcome)
    (d : NewsData) (s : Nat) (tabValue category : String)
    (hmap : (TAB_TO_CATEGORY.find? (fun kv => kv.1 == tabValue)).map (fun kv => kv.2) =
      some category)
    (habsent : d.lookup category = none) :
    (fetchNewsData none .transportError).1 = .failure ∧
    (fetchNewsData none (.httpError s)).1 = .failure ∧
    (fetchNewsData none .invalidJson).1 = .failure ∧
    fetchNewsData none (.ok d) = (.success d, some d, true) ∧
    fetchNewsData (some d) outcome = (.success d, some d, false) ∧
    handleTabClick tabValue none (.ok d) = (.warnedNoItems, some d) := by
  refine ⟨rfl, rfl, rfl, rfl, rfl, ?_⟩
  unfold handleTabClick
  rw [hmap]
  simp [fetchNewsData, habsent]

/-- Witness for the amended claim C8 with a concrete cache and a concrete
response lacking the requested category. -/
theorem content_store_contract_witness :
    fetchNewsData (some generalOnlyData) .transportError =
      (.success generalOnlyData, some generalOnlyData, false) ∧
    handleTabClick "career" none (.ok generalOnlyData) =
      (.warnedNoItems, some generalOnlyData) :=
  ⟨(content_store_contract .transportError generalOnlyData 0
      "career" "career" (by decide) (by decide)).2.2.2.2.1,
   (content_store_contract .transportError generalOnlyData 0
      "career" "career" (by decide) (by decide)).2.2.2.2.2⟩

/-- Claim C9: when the `.news__slider` container is absent,
`initNewsSlider` returns `null` without throwing and leaves the module
state unchanged. -/
theorem initNewsSlider_absent (dom : NewsSliderDom) (st : NewsSliderState)
    (h : dom.sliderEl = false) :
    initNewsSlider dom st = (none, st) := by
  unfold initNewsSlider
  rw [if_pos h]

/-- Witness for claim C9 on a page without the news slider section. -/
theorem initNewsSlider_absent_witness :
    initNewsSlider { sliderEl := false, prevArrowEl := true, nextArrowEl := true }
        { swiperInstance := none, prevArrow := false, nextArrow := false } =
      (none, { swiperInstance := none, prevArrow := false, nextArrow := false }) :=
  initNewsSlider_absent _ _ rfl

/-- Claim C10: on mobile and tablet widths every falsy element is removed
from the output of `reorderCardsForGrid` (its two streams are merged
through `filter(Boolean)`), so length preservation can fail on falsy
input (a lone `null` input yields an empty output), while desktop widths
return the input unchanged, falsy elements included. -/
theorem reorder_filters_falsy (width : Nat) (L : List JSVal) (n : Nat) :
    (width < BREAKPOINTS.DESKTOP →
      ∀ x ∈ reorderCardsForGrid width L n, truthy x = true) ∧
    (BREAKPOINTS.DESKTOP ≤ width → reorderCardsForGrid width L n = L) ∧
    reorderCardsForGrid 375 [JSVal.vnull] 1 = [] ∧
    (reorderCardsForGrid 375 [JSVal.vnull] 1).length ≠ ([JSVal.vnull] : List JSVal).length := by
  refine ⟨?_, ?_, by decide, by decide⟩
  · intro hd x hx
    unfold reorderCardsForGrid at hx
    rw [if_neg (by omega)] at hx
    by_cases ht : BREAKPOINTS.TABLET ≤ width
    · rw [if_pos ht] at hx
      unfold reorderForTabletGrid at hx
      exact List.of_mem_filter hx
    · rw [if_neg ht] at hx
      unfold reorderForMobileGrid at hx
      exact List.of_mem_filter hx
  · intro hd
    unfold reorderCardsForGrid
    rw [if_pos hd]

/-- Witness for claim C10: a mobile-width reorder output containing only
truthy values, and a desktop-width reorder returning a falsy element
unchanged. -/
theorem reorder_filters_falsy_witness :
    (∀ x ∈ reorderCardsForGrid 375 [JSVal.vnull, JSVal.vnum 1] 2, truthy x = true) ∧
    reorderCardsForGrid 1440 [JSVal.vnull] 1 = [JSVal.vnull] :=
  ⟨(reorder_filters_falsy 375 [JSVal.vnull, JSVal.vnum 1] 2).1 (by decide),
   (reorder_filters_falsy 1440 [JSVal.vnull] 1).2.1 (by decide)⟩
